import Mathlib

/-!
Verification of the Memory-Augmented Conversation Engine of the
Content-Generation-Studio repository, as a shallow embedding in Lean 4.

Conventions of the embedding:
* Python floats are modelled as exact rationals (`ℚ`) where the code only
  adds, multiplies, divides and compares, and as real numbers (`ℝ`) where a
  square root is taken (vector norms in the embedding service).
* The SQLAlchemy tables are modelled as Lean lists of structures; a query
  with a filter is a `List.filter`, `first()` is `List.find?`, `db.add` is an
  append, and mutating a fetched row is replacement of the first matching row.
* `try ... except` blocks are modelled with `Except`: a helper computes the
  body's result and the wrapper maps `.error` to the Python handler's value.
* The Redis counter backend is a store of key/count pairs together with
  per-operation failure flags; an operation whose flag is set raises
  (`.error`), modelling an unreachable backend.
* Wall-clock values (`datetime.utcnow()`) are passed in as explicit
  parameters, since the code only formats or stores them.
-/

namespace Studio

/-! ## app/utils/helpers.py -/

/-- Clone of `generate_conversation_title`: truncate the first message to
`max_length` characters, appending an ellipsis when it was longer. -/
def generate_conversation_title (first_message : String) (max_length : Nat := 50) : String :=
  let title := (first_message.toList.take max_length).asString
  if max_length < first_message.length then title ++ "..." else title

/-- The `credit_rates` dict of `calculate_credits`. -/
def credit_rates : List (String × Nat) :=
  [("gpt-4o", 10), ("gpt-4o-mini", 2), ("gpt-3.5-turbo", 1)]

/-- Clone of `calculate_credits`: model-specific multiplier (default 1) times
`tokens // 100`, with a minimum of one credit. -/
def calculate_credits (model : String) (tokens : Nat) : Nat :=
  let base_credits := (credit_rates.lookup model).getD 1
  max 1 (base_credits * (tokens / 100))

/-- The `cost_per_1k` dict of `calculate_cost` (USD per 1000 tokens). -/
def cost_per_1k : List (String × ℚ) :=
  [("gpt-4o", 6/100), ("gpt-4o-mini", 1/1000), ("gpt-3.5-turbo", 2/1000)]

/-- Clone of `calculate_cost`: `(tokens / 1000) * rate`, rate defaulting to
`0.002` for unknown models. -/
def calculate_cost (model : String) (tokens : Nat) : ℚ :=
  let rate := (cost_per_1k.lookup model).getD (2/1000)
  ((tokens : ℚ) / 1000) * rate

/-- The credit multiplier table as the spec states it: a model-specific
integer multiplier, falling back to a default for unknown identifiers. -/
def specCreditRate (model : String) : Nat :=
  if model = "gpt-4o" then 10
  else if model = "gpt-4o-mini" then 2
  else if model = "gpt-3.5-turbo" then 1
  else 1

/-- The USD-per-1K rate table as the spec states it. -/
def specCostRate (model : String) : ℚ :=
  if model = "gpt-4o" then 6/100
  else if model = "gpt-4o-mini" then 1/1000
  else if model = "gpt-3.5-turbo" then 2/1000
  else 2/1000

/-! ## app/utils/rate_limiter.py -/

/-- The Redis counter backend: a key/count store plus one failure flag per
operation used by the rate limiter.  A set flag makes that operation raise,
modelling an unreachable backend (`redis.RedisError`). -/
structure Redis where
  store : List (String × Nat)
  failGet : Bool := false
  failSetex : Bool := false
  failIncr : Bool := false
deriving DecidableEq

/-- `GET key`: the stored count, `none` when the key is absent. -/
def Redis.get (r : Redis) (k : String) : Except Unit (Option Nat) :=
  if r.failGet then .error () else .ok (r.store.lookup k)

/-- `SETEX key ttl v`: store `v` under `k` (TTL expiry is not modelled; the
code's windows are distinguished by timestamped key names instead). -/
def Redis.setex (r : Redis) (k : String) (ttl v : Nat) : Except Unit Redis :=
  if r.failSetex then .error () else .ok { r with store := (k, v) :: r.store }

/-- `INCR key`: increment the stored count (0 when absent). -/
def Redis.incr (r : Redis) (k : String) : Except Unit Redis :=
  if r.failIncr then .error ()
  else .ok { r with store := (k, ((r.store.lookup k).getD 0) + 1) :: r.store }

/-- Clone of `RateLimiter.check_rate_limit`.  Returns
`((is_allowed, remaining_requests), backend_state_after_the_call)`; any
backend error is caught and the request is allowed with `remaining = limit`
(the fail-open branch), leaving the store untouched. -/
def check_rate_limit (r : Redis) (key : String) (limit : Nat) (window_seconds : Nat := 60) :
    (Bool × Int) × Redis :=
  match r.get key with
  | .error _ => ((true, (limit : Int)), r)
  | .ok none =>
    match r.setex key window_seconds 1 with
    | .error _ => ((true, (limit : Int)), r)
    | .ok r1 => ((true, (limit : Int) - 1), r1)
  | .ok (some current_count) =>
    if limit ≤ current_count then ((false, 0), r)
    else
      match r.incr key with
      | .error _ => ((true, (limit : Int)), r)
      | .ok r1 => ((true, (limit : Int) - current_count - 1), r1)

/-- A wall-clock instant, to the precision `strftime` uses here. -/
structure Time where
  year : Nat
  month : Nat
  day : Nat
  hour : Nat
  minute : Nat
deriving DecidableEq

/-- The `strftime` pattern of `get_rate_limit_key` for each window name. -/
def timeWindowString (window : String) (t : Time) : String :=
  if window = "minute" then
    toString t.year ++ "-" ++ toString t.month ++ "-" ++ toString t.day
      ++ "-" ++ toString t.hour ++ "-" ++ toString t.minute
  else if window = "hour" then
    toString t.year ++ "-" ++ toString t.month ++ "-" ++ toString t.day
      ++ "-" ++ toString t.hour
  else
    toString t.year ++ "-" ++ toString t.month ++ "-" ++ toString t.day

/-- Clone of `RateLimiter.get_rate_limit_key`. -/
def get_rate_limit_key (user_id : Nat) (endpoint window : String) (t : Time) : String :=
  "rate_limit:" ++ toString user_id ++ ":" ++ endpoint ++ ":" ++ window
    ++ ":" ++ timeWindowString window t

/-- Clone of `RateLimiter.check_user_rate_limits`: check the minute window,
then the hour window, returning `(is_allowed, error_message)` plus the
backend state after the call. -/
def check_user_rate_limits (r : Redis) (user_id : Nat) (endpoint : String)
    (per_minute : Nat := 60) (per_hour : Nat := 1000) (t : Time) :
    (Bool × String) × Redis :=
  let minute_key := get_rate_limit_key user_id endpoint "minute" t
  let m := check_rate_limit r minute_key per_minute 60
  if m.1.1 = false then
    ((false, "Rate limit exceeded: " ++ toString per_minute ++ " requests per minute"), m.2)
  else
    let hour_key := get_rate_limit_key user_id endpoint "hour" t
    let h := check_rate_limit m.2 hour_key per_hour 3600
    if h.1.1 = false then
      ((false, "Rate limit exceeded: " ++ toString per_hour ++ " requests per hour"), h.2)
    else
      ((true, ""), h.2)

/-- A rejected `check_rate_limit` call returns `(False, 0)` and leaves the
backend store exactly as it was: the rejecting branch performs no write. -/
theorem check_rate_limit_reject (r : Redis) (k : String) (l w : Nat)
    (h : (check_rate_limit r k l w).1.1 = false) :
    check_rate_limit r k l w = ((false, 0), r) := by
  revert h
  unfold check_rate_limit
  cases hg : r.get k with
  | error e => simp
  | ok ov =>
    cases ov with
    | none => cases hs : r.setex k w 1 <;> simp
    | some c =>
      by_cases hc : l ≤ c
      · simp [hc]
      · cases hi : r.incr k <;> simp [hc]

/-- C9: for every model identifier `m` and token count `t`,
`calculate_credits m t = max 1 (rate m * (t / 100))` with the model-specific
integer multiplier, and `calculate_cost m t = (t / 1000) * costRate m` with
the model-specific USD-per-1K rate; unknown identifiers use the default
rates (credits 1, cost 0.002) and both functions are total. -/
theorem credits_and_cost_match_spec (m : String) (t : Nat) :
    calculate_credits m t = max 1 (specCreditRate m * (t / 100))
    ∧ calculate_cost m t = ((t : ℚ) / 1000) * specCostRate m
    ∧ (m ≠ "gpt-4o" → m ≠ "gpt-4o-mini" → m ≠ "gpt-3.5-turbo" →
        calculate_credits m t = max 1 (t / 100)
        ∧ calculate_cost m t = ((t : ℚ) / 1000) * (2/1000)) := by
  have hcred : calculate_credits m t = max 1 (specCreditRate m * (t / 100)) := by
    by_cases h1 : m = "gpt-4o"
    · simp [calculate_credits, credit_rates, specCreditRate, List.lookup, h1]
    · by_cases h2 : m = "gpt-4o-mini"
      · simp [calculate_credits, credit_rates, specCreditRate, List.lookup, h2,
          beq_eq_false_iff_ne.mpr h1]
      · by_cases h3 : m = "gpt-3.5-turbo"
        · simp [calculate_credits, credit_rates, specCreditRate, List.lookup, h3,
            beq_eq_false_iff_ne.mpr h1, beq_eq_false_iff_ne.mpr h2]
        · simp [calculate_credits, credit_rates, specCreditRate, List.lookup, h1, h2, h3,
            beq_eq_false_iff_ne.mpr h1, beq_eq_false_iff_ne.mpr h2,
            beq_eq_false_iff_ne.mpr h3]
  have hcost : calculate_cost m t = ((t : ℚ) / 1000) * specCostRate m := by
    by_cases h1 : m = "gpt-4o"
    · simp [calculate_cost, cost_per_1k, specCostRate, List.lookup, h1]
    · by_cases h2 : m = "gpt-4o-mini"
      · simp [calculate_cost, cost_per_1k, specCostRate, List.lookup, h2,
          beq_eq_false_iff_ne.mpr h1]
      · by_cases h3 : m = "gpt-3.5-turbo"
        · simp [calculate_cost, cost_per_1k, specCostRate, List.lookup, h3,
            beq_eq_false_iff_ne.mpr h1, beq_eq_false_iff_ne.mpr h2]
        · simp [calculate_cost, cost_per_1k, specCostRate, List.lookup, h1, h2, h3,
            beq_eq_false_iff_ne.mpr h1, beq_eq_false_iff_ne.mpr h2,
            beq_eq_false_iff_ne.mpr h3]
  refine ⟨hcred, hcost, fun h1 h2 h3 => ⟨?_, ?_⟩⟩
  · rw [hcred]; simp [specCreditRate, h1, h2, h3]
  · rw [hcost]; simp [specCostRate, h1, h2, h3]

/-- C9 witness: concrete evaluations through the theorem. -/
theorem credits_and_cost_match_spec_witness :
    calculate_credits "mystery-model" 250 = max 1 (250 / 100)
    ∧ calculate_cost "gpt-4o" 500 = ((500 : ℚ) / 1000) * specCostRate "gpt-4o" :=
  ⟨((credits_and_cost_match_spec "mystery-model" 250).2.2 (by decide) (by decide)
      (by decide)).1,
   (credits_and_cost_match_spec "gpt-4o" 500).2.1⟩

/-- C6 counterexample: a call whose hour window is already exhausted is
rejected with the hour message, yet the very same call has incremented the
minute counter (from absent to 1).  So it is not true that a rejected call
increments neither window's counter. -/
theorem rate_limit_rejected_call_increments_minute_counter :
    (check_user_rate_limits
        ⟨[("rate_limit:1:messages:hour:2026-10-12-5", 1000)], false, false, false⟩
        1 "messages" 60 1000 ⟨2026, 10, 12, 5, 30⟩).1.1 = false
    ∧ (check_user_rate_limits
        ⟨[("rate_limit:1:messages:hour:2026-10-12-5", 1000)], false, false, false⟩
        1 "messages" 60 1000 ⟨2026, 10, 12, 5, 30⟩).1.2
      = "Rate limit exceeded: 1000 requests per hour"
    ∧ (check_user_rate_limits
        ⟨[("rate_limit:1:messages:hour:2026-10-12-5", 1000)], false, false, false⟩
        1 "messages" 60 1000 ⟨2026, 10, 12, 5, 30⟩).2.store.lookup
        "rate_limit:1:messages:minute:2026-10-12-5-30" = some 1
    ∧ ([("rate_limit:1:messages:hour:2026-10-12-5", 1000)] : List (String × Nat)).lookup
        "rate_limit:1:messages:minute:2026-10-12-5-30" = none := by
  decide

/-- C6 (amended): a rejected call names the window that failed, and the
rejecting window's counter is not incremented by that call — a minute-window
rejection leaves the whole backend store unchanged, and an hour-window
rejection leaves the store exactly as it was after the minute check of the
same call (whose increment already happened). -/
theorem rate_limit_rejection_reason_and_counters (r : Redis) (uid : Nat)
    (ep : String) (pm ph : Nat) (t : Time) :
    ((check_rate_limit r (get_rate_limit_key uid ep "minute" t) pm 60).1.1 = false →
      check_user_rate_limits r uid ep pm ph t =
        ((false, "Rate limit exceeded: " ++ toString pm ++ " requests per minute"), r))
    ∧ ((check_rate_limit r (get_rate_limit_key uid ep "minute" t) pm 60).1.1 = true →
       (check_rate_limit (check_rate_limit r (get_rate_limit_key uid ep "minute" t) pm 60).2
          (get_rate_limit_key uid ep "hour" t) ph 3600).1.1 = false →
      check_user_rate_limits r uid ep pm ph t =
        ((false, "Rate limit exceeded: " ++ toString ph ++ " requests per hour"),
         (check_rate_limit r (get_rate_limit_key uid ep "minute" t) pm 60).2)) := by
  constructor
  · intro hm
    have hr := check_rate_limit_reject r (get_rate_limit_key uid ep "minute" t) pm 60 hm
    unfold check_user_rate_limits
    simp [hr]
  · intro hm hh
    have hr := check_rate_limit_reject
      (check_rate_limit r (get_rate_limit_key uid ep "minute" t) pm 60).2
      (get_rate_limit_key uid ep "hour" t) ph 3600 hh
    unfold check_user_rate_limits
    simp [hm, hr]

/-- C6 witness: the amended theorem applied at a concrete state whose hour
window is exhausted. -/
theorem rate_limit_rejection_reason_and_counters_witness :
    check_user_rate_limits
        ⟨[("rate_limit:7:chat:hour:2026-10-12-6", 1000)], false, false, false⟩
        7 "chat" 60 1000 ⟨2026, 10, 12, 6, 0⟩ =
      ((false, "Rate limit exceeded: " ++ toString 1000 ++ " requests per hour"),
       (check_rate_limit ⟨[("rate_limit:7:chat:hour:2026-10-12-6", 1000)], false, false, false⟩
          (get_rate_limit_key 7 "chat" "minute" ⟨2026, 10, 12, 6, 0⟩) 60 60).2) :=
  (rate_limit_rejection_reason_and_counters
      ⟨[("rate_limit:7:chat:hour:2026-10-12-6", 1000)], false, false, false⟩
      7 "chat" 60 1000 ⟨2026, 10, 12, 6, 0⟩).2 (by decide) (by decide)

/-- C7: a backend failure never rejects a request.  If the first backend read
fails, the call is allowed with the store untouched (for both the single
check and the combined minute/hour check); conversely, any rejected call
proves the backend responded — the rejection came from a successfully read
counter at or above the limit, with no mutation. -/
theorem rate_limit_fails_open (r : Redis) (k : String) (l w : Nat)
    (uid : Nat) (ep : String) (pm ph : Nat) (t : Time) :
    (r.failGet = true → check_rate_limit r k l w = ((true, (l : Int)), r))
    ∧ (r.failGet = true → check_user_rate_limits r uid ep pm ph t = ((true, ""), r))
    ∧ ((check_rate_limit r k l w).1.1 = false →
        r.failGet = false ∧ ∃ c, r.store.lookup k = some c ∧ l ≤ c
          ∧ check_rate_limit r k l w = ((false, 0), r)) := by
  refine ⟨fun hf => ?_, fun hf => ?_, fun hrej => ?_⟩
  · unfold check_rate_limit Redis.get
    simp [hf]
  · have hone : ∀ k' l' w', check_rate_limit r k' l' w' = ((true, (l' : Int)), r) := by
      intro k' l' w'
      unfold check_rate_limit Redis.get
      simp [hf]
    unfold check_user_rate_limits
    simp [hone]
  · revert hrej
    unfold check_rate_limit
    cases hg : r.get k with
    | error e => simp
    | ok ov =>
      have hfg : r.failGet = false := by
        revert hg; unfold Redis.get
        cases r.failGet <;> simp
      have hov : r.store.lookup k = ov := by
        revert hg; unfold Redis.get
        simp [hfg]
      cases ov with
      | none => cases hs : r.setex k w 1 <;> simp
      | some c =>
        by_cases hc : l ≤ c
        · simp [hc, hfg, hov]
        · cases hi : r.incr k <;> simp [hc]

/-- C7 witness: a fully failing backend still allows the call. -/
theorem rate_limit_fails_open_witness :
    check_rate_limit ⟨[("x", 3)], true, true, true⟩ "x" 5 60 = ((true, (5 : Int)), ⟨[("x", 3)], true, true, true⟩)
    ∧ check_user_rate_limits ⟨[("x", 3)], true, true, true⟩ 1 "messages" 60 1000 ⟨2026, 10, 12, 0, 0⟩
      = ((true, ""), ⟨[("x", 3)], true, true, true⟩) :=
  ⟨(rate_limit_fails_open ⟨[("x", 3)], true, true, true⟩ "x" 5 60 1 "messages" 60 1000
      ⟨2026, 10, 12, 0, 0⟩).1 rfl,
   (rate_limit_fails_open ⟨[("x", 3)], true, true, true⟩ "x" 5 60 1 "messages" 60 1000
      ⟨2026, 10, 12, 0, 0⟩).2.1 rfl⟩

/-! ## app/services/memory_service.py — the `UserContext` store -/

/-- A row of the `user_contexts` table.  Column defaults that matter here:
`usage_count` defaults to 0 and `updated_at` is only set on update. -/
structure UserContext where
  user_id : Nat
  key : String
  value : String
  learned_from_conversation_id : Option String
  confidence_score : ℚ
  usage_count : Nat
  updated_at : Option Nat
deriving DecidableEq

/-- The filter of `get_context_by_key`: row belongs to `uid` and holds `key`. -/
def ctxPred (uid : Nat) (key : String) (c : UserContext) : Bool :=
  c.user_id == uid && c.key == key

/-- Clone of `MemoryService.get_context_by_key`: `.first()` on the filtered
query, i.e. the first matching row. -/
def get_context_by_key (db : List UserContext) (uid : Nat) (key : String) :
    Option UserContext :=
  db.find? (ctxPred uid key)

/-- Replace the first row satisfying `p` (SQLAlchemy: mutating the fetched
row updates it in place). -/
def replaceFirst (p : UserContext → Bool) (new : UserContext) :
    List UserContext → List UserContext
  | [] => []
  | c :: cs => if p c then new :: cs else c :: replaceFirst p new cs

/-- Clone of `MemoryService.update_or_create_context`: overwrite the value,
confidence and provenance of the existing row (refreshing `updated_at`), or
add a fresh row with the column default `usage_count = 0`.  Returns the
affected row and the table after commit. -/
def update_or_create_context (db : List UserContext) (uid : Nat) (key value : String)
    (conversation_id : Option String) (confidence_score : ℚ) (now : Nat) :
    UserContext × List UserContext :=
  match get_context_by_key db uid key with
  | some existing =>
    let updated := { existing with
      value := value
      confidence_score := confidence_score
      learned_from_conversation_id := conversation_id
      updated_at := some now }
    (updated, replaceFirst (ctxPred uid key) updated db)
  | none =>
    let created : UserContext :=
      ⟨uid, key, value, conversation_id, confidence_score, 0, none⟩
    (created, db ++ [created])

/-- All stored facts for `(uid, key)`. -/
def contextFacts (db : List UserContext) (uid : Nat) (key : String) :
    List UserContext :=
  db.filter (ctxPred uid key)

theorem get_context_by_key_eq_none (db : List UserContext) (uid : Nat) (key : String) :
    get_context_by_key db uid key = none ↔ contextFacts db uid key = [] := by
  simp [get_context_by_key, contextFacts, List.find?_eq_none, List.filter_eq_nil_iff]

theorem get_context_by_key_mem {db : List UserContext} {uid : Nat} {key : String}
    {e : UserContext} (h : get_context_by_key db uid key = some e) :
    e ∈ contextFacts db uid key := by
  simp only [contextFacts, List.mem_filter]
  exact ⟨List.mem_of_find?_eq_some h, List.find?_some h⟩

theorem ctxPred_of_get_some {db : List UserContext} {uid : Nat} {key : String}
    {e : UserContext} (h : get_context_by_key db uid key = some e) :
    e.user_id = uid ∧ e.key = key := by
  have := List.find?_some h
  simpa [ctxPred, Bool.and_eq_true, beq_iff_eq] using this

theorem get_context_by_key_of_facts_single {db : List UserContext} {uid : Nat}
    {key : String} {x : UserContext} (h : contextFacts db uid key = [x]) :
    get_context_by_key db uid key = some x := by
  cases hf : get_context_by_key db uid key with
  | none =>
    rw [get_context_by_key_eq_none] at hf
    rw [hf] at h
    cases h
  | some e =>
    have hm := get_context_by_key_mem hf
    rw [h] at hm
    simp only [List.mem_singleton] at hm
    rw [hm]

theorem replaceFirst_filter (p : UserContext → Bool) (new : UserContext)
    (hnew : p new = true) :
    ∀ db : List UserContext,
      (replaceFirst p new db).filter p =
        match db.filter p with
        | [] => []
        | _ :: rest => new :: rest
  | [] => by simp [replaceFirst]
  | c :: cs => by
    by_cases hc : p c
    · simp [replaceFirst, hc, hnew, List.filter_cons]
    · simp only [replaceFirst, hc, if_false, List.filter_cons,
        Bool.false_eq_true, ite_false]
      exact replaceFirst_filter p new hnew cs

/-- One upsert against a table holding at most one fact for the key leaves
exactly the returned row as the facts for that key. -/
theorem upsert_contextFacts (db : List UserContext) (uid : Nat) (key v : String)
    (prov : Option String) (conf : ℚ) (t : Nat)
    (hinv : (contextFacts db uid key).length ≤ 1) :
    contextFacts (update_or_create_context db uid key v prov conf t).2 uid key
      = [(update_or_create_context db uid key v prov conf t).1] := by
  cases hfind : get_context_by_key db uid key with
  | none =>
    have hnil : contextFacts db uid key = [] :=
      (get_context_by_key_eq_none db uid key).mp hfind
    simp only [update_or_create_context, hfind, contextFacts] at *
    rw [List.filter_append, hnil]
    simp [ctxPred]
  | some e =>
    have hfacts : contextFacts db uid key = [e] := by
      have hmem := get_context_by_key_mem hfind
      cases hf : contextFacts db uid key with
      | nil => rw [hf] at hmem; cases hmem
      | cons x xs =>
        rw [hf] at hinv hmem
        have hxs : xs = [] := by
          cases xs with
          | nil => rfl
          | cons y ys => simp at hinv
        subst hxs
        simp only [List.mem_singleton] at hmem
        rw [hmem]
    have hpe := ctxPred_of_get_some hfind
    have hpnew : ctxPred uid key { e with
        value := v
        confidence_score := conf
        learned_from_conversation_id := prov
        updated_at := some t } = true := by
      simp [ctxPred, hpe.1, hpe.2]
    simp only [update_or_create_context, hfind, contextFacts]
    rw [replaceFirst_filter _ _ hpnew db]
    have : db.filter (ctxPred uid key) = [e] := hfacts
    rw [this]

/-- The row returned by an upsert carries the written value, confidence and
provenance, and belongs to `(uid, key)`. -/
theorem upsert_result_fields (db : List UserContext) (uid : Nat) (key v : String)
    (prov : Option String) (conf : ℚ) (t : Nat) :
    (update_or_create_context db uid key v prov conf t).1.value = v
    ∧ (update_or_create_context db uid key v prov conf t).1.confidence_score = conf
    ∧ (update_or_create_context db uid key v prov conf t).1.learned_from_conversation_id = prov
    ∧ (update_or_create_context db uid key v prov conf t).1.user_id = uid
    ∧ (update_or_create_context db uid key v prov conf t).1.key = key := by
  cases hfind : get_context_by_key db uid key with
  | none => simp [update_or_create_context, hfind]
  | some e =>
    have hpe := ctxPred_of_get_some hfind
    simp [update_or_create_context, hfind, hpe.1, hpe.2]

/-- An upsert never touches the usage counter: the returned row keeps the
existing row's count, or starts at the column default 0. -/
theorem upsert_result_usage (db : List UserContext) (uid : Nat) (key v : String)
    (prov : Option String) (conf : ℚ) (t : Nat) :
    (update_or_create_context db uid key v prov conf t).1.usage_count
      = match get_context_by_key db uid key with
        | some e => e.usage_count
        | none => 0 := by
  cases hfind : get_context_by_key db uid key with
  | none => simp [update_or_create_context, hfind]
  | some e => simp [update_or_create_context, hfind]

/-- C3: starting from a table holding at most one fact for `(uid, K)`,
upserting `K` twice with two different payloads leaves exactly one stored
fact for `(uid, K)`, and it holds the second value, confidence and
provenance (last write wins); when no fact existed beforehand, the fact
created by the first upsert has usage count zero (and the final fact still
does). -/
theorem context_upsert_last_write_wins (db : List UserContext) (uid : Nat)
    (key v1 v2 : String) (p1 p2 : Option String) (c1 c2 : ℚ) (t1 t2 : Nat)
    (hinv : (contextFacts db uid key).length ≤ 1) :
    contextFacts
        (update_or_create_context
          (update_or_create_context db uid key v1 p1 c1 t1).2
          uid key v2 p2 c2 t2).2 uid key
      = [(update_or_create_context
          (update_or_create_context db uid key v1 p1 c1 t1).2
          uid key v2 p2 c2 t2).1]
    ∧ (update_or_create_context
          (update_or_create_context db uid key v1 p1 c1 t1).2
          uid key v2 p2 c2 t2).1.value = v2
    ∧ (update_or_create_context
          (update_or_create_context db uid key v1 p1 c1 t1).2
          uid key v2 p2 c2 t2).1.confidence_score = c2
    ∧ (update_or_create_context
          (update_or_create_context db uid key v1 p1 c1 t1).2
          uid key v2 p2 c2 t2).1.learned_from_conversation_id = p2
    ∧ (contextFacts db uid key = [] →
        (update_or_create_context db uid key v1 p1 c1 t1).1.usage_count = 0
        ∧ (update_or_create_context
            (update_or_create_context db uid key v1 p1 c1 t1).2
            uid key v2 p2 c2 t2).1.usage_count = 0) := by
  have h1 := upsert_contextFacts db uid key v1 p1 c1 t1 hinv
  have hinv1 : (contextFacts (update_or_create_context db uid key v1 p1 c1 t1).2
      uid key).length ≤ 1 := by rw [h1]; simp
  have h2 := upsert_contextFacts (update_or_create_context db uid key v1 p1 c1 t1).2
    uid key v2 p2 c2 t2 hinv1
  have hfields := upsert_result_fields (update_or_create_context db uid key v1 p1 c1 t1).2
    uid key v2 p2 c2 t2
  refine ⟨h2, hfields.1, hfields.2.1, hfields.2.2.1, fun hnil => ?_⟩
  have hfind1 : get_context_by_key db uid key = none :=
    (get_context_by_key_eq_none db uid key).mpr hnil
  have hu1 : (update_or_create_context db uid key v1 p1 c1 t1).1.usage_count = 0 := by
    rw [upsert_result_usage, hfind1]
  refine ⟨hu1, ?_⟩
  have hfind2 : get_context_by_key (update_or_create_context db uid key v1 p1 c1 t1).2
      uid key = some (update_or_create_context db uid key v1 p1 c1 t1).1 :=
    get_context_by_key_of_facts_single h1
  rw [upsert_result_usage, hfind2]
  exact hu1

/-- C3 witness: two upserts of the same key on an empty table. -/
theorem context_upsert_last_write_wins_witness :
    contextFacts
        (update_or_create_context
          (update_or_create_context [] 1 "writing_style" "casual" none 1 0).2
          1 "writing_style" "formal" (some "conv1") (7/10) 5).2 1 "writing_style"
      = [(update_or_create_context
          (update_or_create_context [] 1 "writing_style" "casual" none 1 0).2
          1 "writing_style" "formal" (some "conv1") (7/10) 5).1]
    ∧ (update_or_create_context
          (update_or_create_context [] 1 "writing_style" "casual" none 1 0).2
          1 "writing_style" "formal" (some "conv1") (7/10) 5).1.value = "formal"
    ∧ (update_or_create_context [] 1 "writing_style" "casual" none 1 0).1.usage_count = 0 :=
  have h := context_upsert_last_write_wins [] 1 "writing_style" "casual" "formal"
    none (some "conv1") 1 (7/10) 0 5 (by decide)
  ⟨h.1, h.2.1, (h.2.2.2.2 (by decide)).1⟩

/-! ## app/services/embedding_service.py

Vectors of floats are modelled as `List ℝ` (the norm takes a square root, so
rationals do not suffice).  `np.dot` raises on vectors of mismatched length,
modelled with `Except`; `np.linalg.norm` is the Euclidean norm. -/

/-- A row of the `messages` table. -/
structure Message where
  id : Nat
  conversation_id : String
  role : String
  content : String
  tokens_used : Nat
  model_used : Option String
  created_at : Nat
deriving DecidableEq

/-- `np.dot` on two equal-length 1-D arrays. -/
def dotProduct (v1 v2 : List ℝ) : ℝ :=
  (List.zipWith (fun a b => a * b) v1 v2).sum

/-- `np.linalg.norm`: the Euclidean norm. -/
noncomputable def vecNorm (v : List ℝ) : ℝ :=
  Real.sqrt ((v.map (fun x => x * x)).sum)

/-- Clone of `EmbeddingService.cosine_similarity`: `np.dot` raises on
mismatched dimensions (modelled as `.error`); otherwise the dot product over
the product of norms, or `0.0` when either norm is zero. -/
noncomputable def cosine_similarity (v1 v2 : List ℝ) : Except String ℝ :=
  if v1.length ≠ v2.length then
    .error "shapes not aligned"
  else if vecNorm v1 = 0 ∨ vecNorm v2 = 0 then
    .ok 0
  else
    .ok (dotProduct v1 v2 / (vecNorm v1 * vecNorm v2))

/-- One row of the query in `search_similar_messages`: a message joined to
its stored embedding, with the owning user of its conversation (the join
through `Message.conversation`).  `embedding` is the result of
`json.loads` on the stored column — `none` models a malformed JSON value. -/
structure StoredEmbedding where
  message : Message
  owner_user_id : Nat
  embedding : Option (List ℝ)

/-- The similarity loop of `search_similar_messages`: for each row, decode
the stored embedding, compare with the query vector, and keep the pairs at
or above `min_similarity` in row order; the first raised error aborts. -/
noncomputable def scanEmbeddings (q : List ℝ) (min_similarity : ℝ) :
    List StoredEmbedding → Except String (List (Message × ℝ))
  | [] => .ok []
  | r :: rs =>
    match r.embedding with
    | none => .error "malformed stored embedding"
    | some v =>
      match cosine_similarity q v with
      | .error e => .error e
      | .ok s =>
        match scanEmbeddings q min_similarity rs with
        | .error e => .error e
        | .ok rest => .ok (if min_similarity ≤ s then (r.message, s) :: rest else rest)

/-- Insert into a list that is sorted by non-increasing score. -/
noncomputable def insertByScore (x : Message × ℝ) :
    List (Message × ℝ) → List (Message × ℝ)
  | [] => [x]
  | y :: ys => if y.2 ≤ x.2 then x :: y :: ys else y :: insertByScore x ys

/-- `results.sort(key=lambda x: x[1], reverse=True)`: sort by score,
descending. -/
noncomputable def sortByScoreDesc : List (Message × ℝ) → List (Message × ℝ)
  | [] => []
  | x :: xs => insertByScore x (sortByScoreDesc xs)

/-- Clone of `EmbeddingService.search_similar_messages`.  The query
embedding is the (possibly failed) result of the injected embedding
capability; any raised error — capability failure, malformed stored JSON,
dimension mismatch — is caught by the surrounding `except` and yields `[]`.
The function reads the store and never writes to it. -/
noncomputable def search_similar_messages (query_embedding : Except String (List ℝ))
    (db : List StoredEmbedding) (user_id limit : Nat) (min_similarity : ℝ) :
    List (Message × ℝ) :=
  match query_embedding with
  | .error _ => []
  | .ok q =>
    match scanEmbeddings q min_similarity
        (db.filter (fun r => r.owner_user_id == user_id)) with
    | .error _ => []
    | .ok results => (sortByScoreDesc results).take limit

theorem sum_squares_nonneg (v : List ℝ) : 0 ≤ (v.map (fun x => x * x)).sum := by
  apply List.sum_nonneg
  intro x hx
  obtain ⟨y, _, rfl⟩ := List.mem_map.mp hx
  exact mul_self_nonneg y

theorem vecNorm_eq_zero_iff (v : List ℝ) :
    vecNorm v = 0 ↔ (v.map (fun x => x * x)).sum = 0 := by
  unfold vecNorm
  constructor
  · intro h
    exact le_antisymm (Real.sqrt_eq_zero'.mp h) (sum_squares_nonneg v)
  · intro h
    rw [h, Real.sqrt_zero]

theorem dotProduct_self (v : List ℝ) :
    dotProduct v v = (v.map (fun x => x * x)).sum := by
  unfold dotProduct
  induction v with
  | nil => simp
  | cons x xs ih => simp [List.zipWith, ih]

theorem vecNorm_mul_self (v : List ℝ) :
    vecNorm v * vecNorm v = (v.map (fun x => x * x)).sum := by
  unfold vecNorm
  exact Real.mul_self_sqrt (sum_squares_nonneg v)

/-- C2: on equal-length vectors, `cosine_similarity` never raises; it is the
dot product over the product of norms when both norms are non-zero and `0.0`
when either norm is zero; a non-degenerate vector has self-similarity
exactly 1, and similarity 0 against the zero vector of its dimension. -/
theorem cosine_similarity_spec (v1 v2 : List ℝ) (h : v1.length = v2.length) :
    (∃ s, cosine_similarity v1 v2 = .ok s)
    ∧ (vecNorm v1 = 0 ∨ vecNorm v2 = 0 → cosine_similarity v1 v2 = .ok 0)
    ∧ (vecNorm v1 ≠ 0 → vecNorm v2 ≠ 0 →
        cosine_similarity v1 v2 = .ok (dotProduct v1 v2 / (vecNorm v1 * vecNorm v2)))
    ∧ (vecNorm v1 ≠ 0 → cosine_similarity v1 v1 = .ok 1)
    ∧ cosine_similarity v1 (List.replicate v1.length 0) = .ok 0 := by
  have hnot : ¬ v1.length ≠ v2.length := by simp [h]
  refine ⟨?_, ?_, ?_, ?_, ?_⟩
  · unfold cosine_similarity
    rw [if_neg hnot]
    by_cases hz : vecNorm v1 = 0 ∨ vecNorm v2 = 0
    · exact ⟨0, if_pos hz⟩
    · exact ⟨_, if_neg hz⟩
  · intro hz
    unfold cosine_similarity
    rw [if_neg hnot, if_pos hz]
  · intro h1 h2
    unfold cosine_similarity
    rw [if_neg hnot, if_neg (by simp [h1, h2])]
  · intro h1
    unfold cosine_similarity
    rw [if_neg (by simp), if_neg (by simp [h1])]
    rw [dotProduct_self, ← vecNorm_mul_self]
    have hne : vecNorm v1 * vecNorm v1 ≠ 0 := mul_ne_zero h1 h1
    rw [div_self hne]
  · have hzero : vecNorm (List.replicate v1.length (0 : ℝ)) = 0 := by
      rw [vecNorm_eq_zero_iff]
      simp [List.map_replicate]
    unfold cosine_similarity
    rw [if_neg (by simp), if_pos (Or.inr hzero)]

/-- C2 witness: concrete evaluations through the theorem. -/
theorem cosine_similarity_spec_witness :
    cosine_similarity [(1 : ℝ), 0] [(1 : ℝ), 0] = .ok 1
    ∧ cosine_similarity [(1 : ℝ), 0] (List.replicate 2 0) = .ok 0 :=
  ⟨(cosine_similarity_spec [(1 : ℝ), 0] [(1 : ℝ), 0] rfl).2.2.2.1
      (by
        intro hc
        rw [vecNorm_eq_zero_iff] at hc
        norm_num at hc),
   (cosine_similarity_spec [(1 : ℝ), 0] [(0 : ℝ), 1] rfl).2.2.2.2⟩

theorem mem_insertByScore {x p : Message × ℝ} :
    ∀ {l : List (Message × ℝ)}, p ∈ insertByScore x l ↔ p = x ∨ p ∈ l
  | [] => by simp [insertByScore]
  | y :: ys => by
    unfold insertByScore
    by_cases hc : y.2 ≤ x.2
    · simp [hc]
    · simp only [hc, if_false, List.mem_cons, Bool.false_eq_true, ite_false]
      rw [mem_insertByScore (l := ys)]
      tauto

theorem mem_sortByScoreDesc {p : Message × ℝ} :
    ∀ {l : List (Message × ℝ)}, p ∈ sortByScoreDesc l ↔ p ∈ l
  | [] => by simp [sortByScoreDesc]
  | x :: xs => by
    unfold sortByScoreDesc
    rw [mem_insertByScore, mem_sortByScoreDesc (l := xs)]
    simp

theorem pairwise_insertByScore (x : Message × ℝ) :
    ∀ {l : List (Message × ℝ)}, l.Pairwise (fun a b => b.2 ≤ a.2) →
      (insertByScore x l).Pairwise (fun a b => b.2 ≤ a.2)
  | [], _ => by simp [insertByScore]
  | y :: ys, h => by
    unfold insertByScore
    rcases List.pairwise_cons.mp h with ⟨hy, hys⟩
    by_cases hc : y.2 ≤ x.2
    · simp only [hc, if_true, ite_true]
      refine List.pairwise_cons.mpr ⟨?_, h⟩
      intro z hz
      rcases List.mem_cons.mp hz with rfl | hz'
      · exact hc
      · exact le_trans (hy z hz') hc
    · simp only [hc, if_false, Bool.false_eq_true, ite_false]
      refine List.pairwise_cons.mpr ⟨?_, pairwise_insertByScore x hys⟩
      intro z hz
      rcases mem_insertByScore.mp hz with rfl | hz'
      · exact le_of_not_le hc
      · exact hy z hz'

theorem pairwise_sortByScoreDesc :
    ∀ (l : List (Message × ℝ)),
      (sortByScoreDesc l).Pairwise (fun a b => b.2 ≤ a.2)
  | [] => by simp [sortByScoreDesc]
  | x :: xs => by
    unfold sortByScoreDesc
    exact pairwise_insertByScore x (pairwise_sortByScoreDesc xs)

theorem scanEmbeddings_ok_ge (q : List ℝ) (minSim : ℝ) :
    ∀ (rows : List StoredEmbedding) (res : List (Message × ℝ)),
      scanEmbeddings q minSim rows = .ok res → ∀ p ∈ res, minSim ≤ p.2
  | [], res, h => by
    intro p hp
    simp only [scanEmbeddings, Except.ok.injEq] at h
    rw [← h] at hp
    cases hp
  | r :: rs, res, h => by
    intro p hp
    unfold scanEmbeddings at h
    split at h
    · exact absurd h (by simp)
    · split at h
      · exact absurd h (by simp)
      · rename_i v hv s hcos
        split at h
        · exact absurd h (by simp)
        · rename_i rest hsc
          simp only [Except.ok.injEq] at h
          have hrest := scanEmbeddings_ok_ge q minSim rs rest hsc
          by_cases hkeep : minSim ≤ s
          · rw [if_pos hkeep] at h
            rw [← h] at hp
            rcases List.mem_cons.mp hp with rfl | hp'
            · exact hkeep
            · exact hrest p hp'
          · rw [if_neg hkeep] at h
            rw [← h] at hp
            exact hrest p hp

/-- C1: every entry returned by the embedding search scores at least
`min_similarity`, the results are sorted by non-increasing score, and at
most `limit` entries are returned — for every query outcome, store, user,
limit and threshold. -/
theorem search_results_filtered_sorted_bounded (gen : Except String (List ℝ))
    (db : List StoredEmbedding) (uid limit : Nat) (minSim : ℝ) :
    (∀ p ∈ search_similar_messages gen db uid limit minSim, minSim ≤ p.2)
    ∧ (search_similar_messages gen db uid limit minSim).Pairwise
        (fun a b => b.2 ≤ a.2)
    ∧ (search_similar_messages gen db uid limit minSim).length ≤ limit := by
  unfold search_similar_messages
  cases gen with
  | error e => simp
  | ok q =>
    cases hscan : scanEmbeddings q minSim
        (db.filter fun r => r.owner_user_id == uid) with
    | error e => simp [hscan]
    | ok results =>
      simp only [hscan]
      refine ⟨?_, ?_, ?_⟩
      · intro p hp
        have hp1 : p ∈ sortByScoreDesc results :=
          (List.take_sublist _ _).subset hp
        exact scanEmbeddings_ok_ge q minSim _ results hscan p
          (mem_sortByScoreDesc.mp hp1)
      · exact List.Pairwise.sublist (List.take_sublist _ _)
          (pairwise_sortByScoreDesc results)
      · exact List.length_take_le _ _

/-- C1 witness: the theorem applied at a concrete call. -/
theorem search_results_filtered_sorted_bounded_witness :
    (search_similar_messages (.ok [1, 0]) [] 1 10 (7/10)).length ≤ 10 :=
  (search_results_filtered_sorted_bounded (.ok [1, 0]) [] 1 10 (7/10)).2.2

theorem scanEmbeddings_error_of_bad_row (q : List ℝ) (minSim : ℝ) :
    ∀ (rows : List StoredEmbedding), ∀ r ∈ rows,
      (r.embedding = none ∨ ∃ v, r.embedding = some v ∧ v.length ≠ q.length) →
      ∃ e, scanEmbeddings q minSim rows = .error e
  | [], r, hr, _ => absurd hr (List.not_mem_nil r)
  | s :: ss, r, hr, hbad => by
    rcases List.mem_cons.mp hr with rfl | hr'
    · rcases hbad with hnone | ⟨v, hv, hlen⟩
      · exact ⟨"malformed stored embedding", by simp [scanEmbeddings, hnone]⟩
      · have hcos : cosine_similarity q v = .error "shapes not aligned" := by
          unfold cosine_similarity
          rw [if_pos (fun hq => hlen hq.symm)]
        exact ⟨"shapes not aligned", by simp [scanEmbeddings, hv, hcos]⟩
    · cases hse : s.embedding with
      | none =>
        exact ⟨"malformed stored embedding", by simp [scanEmbeddings, hse]⟩
      | some v =>
        cases hcos : cosine_similarity q v with
        | error e => exact ⟨e, by simp [scanEmbeddings, hse, hcos]⟩
        | ok sc =>
          obtain ⟨e, he⟩ := scanEmbeddings_error_of_bad_row q minSim ss r hr' hbad
          exact ⟨e, by simp [scanEmbeddings, hse, hcos, he]⟩

/-- C10: the embedding search returns the empty list whenever anything
fails — the embedding capability raised, or some stored embedding of the
user's is malformed JSON, or its vector's dimension mismatches the query
vector's.  The function is total (never raises) and performs no writes. -/
theorem search_empty_on_failure (gen : Except String (List ℝ))
    (db : List StoredEmbedding) (uid limit : Nat) (minSim : ℝ) :
    (∀ e, gen = .error e → search_similar_messages gen db uid limit minSim = [])
    ∧ (∀ q, gen = .ok q → ∀ r ∈ db, r.owner_user_id = uid →
        (r.embedding = none ∨ ∃ v, r.embedding = some v ∧ v.length ≠ q.length) →
        search_similar_messages gen db uid limit minSim = []) := by
  constructor
  · intro e he
    subst he
    simp [search_similar_messages]
  · intro q hq r hr hu hbad
    subst hq
    have hrmem : r ∈ db.filter (fun s => s.owner_user_id == uid) :=
      List.mem_filter.mpr ⟨hr, by simp [hu]⟩
    obtain ⟨e, he⟩ := scanEmbeddings_error_of_bad_row q minSim _ r hrmem hbad
    simp [search_similar_messages, he]

/-- C10 witness: a failed capability, and a malformed stored row. -/
theorem search_empty_on_failure_witness :
    search_similar_messages (.error "Embedding generation error") [] 1 10 0 = []
    ∧ search_similar_messages (.ok [1, 0])
        [⟨⟨1, "c1", "assistant", "hi", 0, none, 0⟩, 1, none⟩] 1 10 0 = [] :=
  ⟨(search_empty_on_failure (.error "Embedding generation error") [] 1 10 0).1
      "Embedding generation error" rfl,
   (search_empty_on_failure (.ok [1, 0])
      [⟨⟨1, "c1", "assistant", "hi", 0, none, 0⟩, 1, none⟩] 1 10 0).2
      [1, 0] rfl ⟨⟨1, "c1", "assistant", "hi", 0, none, 0⟩, 1, none⟩
      (List.mem_singleton.mpr rfl) rfl (Or.inl rfl)⟩

/-! ## app/core/prompts.py -/

/-- `SYSTEM_PROMPTS["default"]`. -/
def defaultSystemPrompt : String :=
  "You are a helpful AI assistant specialized in content creation.\nProvide high-quality, accurate, and relevant responses.\nAdapt your tone and style to match the user's needs."

/-- The `SYSTEM_PROMPTS` dict. -/
def SYSTEM_PROMPTS : List (String × String) :=
  [("blog", "You are an expert content writer specializing in blog articles.\nCreate engaging, well-structured, and SEO-optimized blog posts.\nUse clear headings, short paragraphs, and maintain a conversational yet professional tone."),
   ("social_media", "You are a social media expert who creates viral, engaging content.\nUnderstand platform-specific best practices for LinkedIn, Twitter, Instagram, and Facebook.\nUse appropriate hashtags, emojis, and hooks to maximize engagement."),
   ("email", "You are a professional copywriter specializing in email marketing.\nCreate compelling subject lines and persuasive email copy that drives action.\nFocus on clarity, value proposition, and strong calls-to-action."),
   ("product_description", "You are an e-commerce copywriting expert.\nWrite compelling product descriptions that highlight benefits, features, and solve customer problems.\nUse persuasive language that converts browsers into buyers."),
   ("youtube_script", "You are a YouTube scriptwriter who creates engaging video content.\nStructure scripts with strong hooks, clear sections, and natural speaking patterns.\nInclude timestamps and engagement cues."),
   ("resume", "You are a professional resume writer and career coach.\nCreate ATS-friendly resumes that highlight achievements and skills effectively.\nUse action verbs and quantifiable results."),
   ("translation", "You are an expert translator who maintains tone, context, and cultural nuances.\nProvide accurate translations that feel natural in the target language.\nPreserve the original meaning and intent."),
   ("rewrite", "You are a professional editor who improves clarity and readability.\nMaintain the original message while enhancing style, tone, and impact.\nFix grammar and improve sentence structure."),
   ("summarize", "You are an expert at distilling complex information into clear summaries.\nExtract key points and present them concisely without losing important context.\nOrganize information logically."),
   ("seo", "You are an SEO specialist who optimizes content for search engines.\nFocus on keyword integration, readability, and user intent.\nProvide actionable recommendations for improving rankings."),
   ("default", defaultSystemPrompt)]

/-- Clone of `get_system_prompt`: table lookup with the default fallback. -/
def get_system_prompt (content_type : String) : String :=
  (SYSTEM_PROMPTS.lookup content_type).getD defaultSystemPrompt

/-- One personalization clause of `build_personalized_prompt`: added only
when the key is present with a truthy (non-empty) value. -/
def ctxClause (ctx : List (String × String)) (key : String) (f : String → String) :
    List String :=
  match ctx.lookup key with
  | some v => if v = "" then [] else [f v]
  | none => []

/-- Clone of `build_personalized_prompt`. -/
def build_personalized_prompt (content_type : String)
    (user_context : List (String × String)) : String :=
  let base_prompt := get_system_prompt content_type
  let personalization :=
    ctxClause user_context "writing_style"
      (fun v => "The user prefers a " ++ v ++ " writing style.")
    ++ ctxClause user_context "industry"
      (fun v => "They work in the " ++ v ++ " industry.")
    ++ ctxClause user_context "tone_preference"
      (fun v => "Use a " ++ v ++ " tone.")
    ++ ctxClause user_context "target_audience"
      (fun v => "Target audience: " ++ v ++ ".")
  if personalization ≠ [] then
    base_prompt ++ "\n\n" ++ String.intercalate " " personalization
  else
    base_prompt

/-! ## app/services/openai_service.py -/

/-- `settings.DEFAULT_MODEL`. -/
def DEFAULT_MODEL : String := "gpt-4o-mini"

/-- A chat message in OpenAI wire format. -/
structure RoleMsg where
  role : String
  content : String
deriving DecidableEq

/-- The raw chat-completions response as the OpenAI client returns it:
`response.model` is the model identifier the API reports actually serving,
which may differ from the requested one. -/
structure ChatResponse where
  content : String
  total_tokens : Nat
  model : String
  finish_reason : String
deriving DecidableEq

/-- The dict returned by `OpenAIService.generate_content`. -/
structure GenOut where
  content : String
  tokens_used : Nat
  model_used : String
  finish_reason : String
deriving DecidableEq

/-- The injected chat capability: messages and the requested model in, a raw
response (or an upstream failure) out. -/
def ChatClient : Type := List RoleMsg → String → Except String ChatResponse

/-- Clone of `OpenAIService.generate_content`: default the model, call the
client, and package the result.  Note that the returned `model_used` is the
`model` variable (the requested-or-default identifier), not the response
field `response.model`. -/
def generate_content (client : ChatClient) (messages : List RoleMsg)
    (model : Option String) : Except String GenOut :=
  match client messages (model.getD DEFAULT_MODEL) with
  | .error e => .error ("OpenAI API error: " ++ e)
  | .ok response =>
    .ok ⟨response.content, response.total_tokens, model.getD DEFAULT_MODEL,
      response.finish_reason⟩

/-- `conversation_history[-10:]`: the last `n` elements. -/
def takeLast {α : Type} (n : Nat) (l : List α) : List α :=
  l.drop (l.length - n)

/-- Clone of `OpenAIService.generate_with_context`: build the system prompt
(personalized only when the context dict is truthy, i.e. non-empty), prepend
it, append the last 10 history messages and the new user message, and call
`generate_content`. -/
def generate_with_context (client : ChatClient) (user_message content_type : String)
    (user_context : List (String × String)) (conversation_history : List RoleMsg)
    (model : Option String) : Except String GenOut :=
  generate_content client
    (⟨"system",
        if user_context ≠ [] then build_personalized_prompt content_type user_context
        else get_system_prompt content_type⟩ ::
      (takeLast 10 conversation_history ++ [⟨"user", user_message⟩]))
    model

/-! ## app/services/conversation_service.py -/

/-- A row of the `conversations` table (the fields the engine touches). -/
structure Conversation where
  id : String
  user_id : Nat
  title : String
  session_id : String
  updated_at : Nat
deriving DecidableEq

/-- The database state the conversation pipeline reads and writes:
conversations, messages, context facts, and stored message embeddings
(`message_id` to decoded vector). -/
structure ChatState where
  conversations : List Conversation
  messages : List Message
  contexts : List UserContext
  embeddings : List (Nat × List ℝ)

/-- Update the first element satisfying `p` in place (SQLAlchemy: fetch with
`.first()` and mutate), a no-op when nothing matches. -/
def updateFirst {α : Type} (p : α → Bool) (f : α → α) : List α → List α
  | [] => []
  | x :: xs => if p x then f x :: xs else x :: updateFirst p f xs

/-- Clone of `ConversationService.create_conversation` (fresh ids supplied
by the caller in place of `uuid4`). -/
def create_conversation (st : ChatState) (uid : Nat) (title : Option String)
    (newConvId newSessionId : String) (now : Nat) : Conversation × ChatState :=
  let conversation : Conversation :=
    ⟨newConvId, uid, title.getD "New Conversation", newSessionId, now⟩
  (conversation, { st with conversations := st.conversations ++ [conversation] })

/-- Clone of `ConversationService.get_conversation`: first conversation with
this id owned by this user. -/
def get_conversation (st : ChatState) (conversation_id : String) (uid : Nat) :
    Option Conversation :=
  st.conversations.find? (fun c => c.id == conversation_id && c.user_id == uid)

/-- Clone of `ConversationService.save_message`: append the message row and
bump the parent conversation's `updated_at`. -/
def save_message (st : ChatState) (conversation_id : String) (role content : String)
    (tokens_used : Nat) (model_used : Option String) (newMsgId now : Nat) :
    Message × ChatState :=
  let message : Message := ⟨newMsgId, conversation_id, role, content, tokens_used,
    model_used, now⟩
  (message,
   { st with
       messages := st.messages ++ [message]
       conversations := updateFirst (fun c => c.id == conversation_id)
         (fun c => { c with updated_at := now }) st.conversations })

/-- Insert into a list of messages sorted by non-increasing `created_at`. -/
def insertByCreated (x : Message) : List Message → List Message
  | [] => [x]
  | y :: ys => if y.created_at ≤ x.created_at then x :: y :: ys
               else y :: insertByCreated x ys

/-- `order_by(desc(Message.created_at))`. -/
def sortByCreatedDesc : List Message → List Message
  | [] => []
  | x :: xs => insertByCreated x (sortByCreatedDesc xs)

/-- Clone of `ConversationService.get_recent_messages`: newest `limit`
messages of the conversation, reversed to chronological order and projected
to OpenAI format. -/
def get_recent_messages (st : ChatState) (conversation_id : String)
    (limit : Nat) : List RoleMsg :=
  ((sortByCreatedDesc
      (st.messages.filter (fun m => m.conversation_id == conversation_id))).take
    limit).reverse.map (fun m => ⟨m.role, m.content⟩)

/-- Insert into a list of context rows sorted by non-increasing confidence. -/
def insertByConfidence (x : UserContext) : List UserContext → List UserContext
  | [] => [x]
  | y :: ys => if y.confidence_score ≤ x.confidence_score then x :: y :: ys
               else y :: insertByConfidence x ys

/-- `order_by(desc(UserContext.confidence_score))`. -/
def sortByConfidenceDesc : List UserContext → List UserContext
  | [] => []
  | x :: xs => insertByConfidence x (sortByConfidenceDesc xs)

/-- Python dict assignment `d[k] = v`: overwrite in place or append. -/
def dictInsert (d : List (String × String)) (k v : String) :
    List (String × String) :=
  if d.any (fun p => p.1 == k) then
    d.map (fun p => if p.1 == k then (p.1, v) else p)
  else
    d ++ [(k, v)]

/-- Clone of `MemoryService.get_user_context`: the user's facts ordered by
descending confidence, collected into a key/value dict. -/
def get_user_context (st : ChatState) (uid : Nat) : List (String × String) :=
  (sortByConfidenceDesc (st.contexts.filter (fun c => c.user_id == uid))).foldl
    (fun acc c => dictInsert acc c.key c.value) []

/-- The context/history step of `chat_with_memory` (lines 150-156): the
context snapshot is fetched only when `use_memory` is set, while the recent
history window is fetched unconditionally. -/
def contextAndHistory (st : ChatState) (uid : Nat) (conversation_id : String)
    (use_memory : Bool) : List (String × String) × List RoleMsg :=
  (if use_memory then get_user_context st uid else [],
   get_recent_messages st conversation_id 10)

/-- Clone of `EmbeddingService.generate_and_store_embedding`: on capability
success, upsert the vector keyed by the message id; on failure, roll back
and report `false`. -/
def generate_and_store_embedding (st : ChatState) (embedCap : Except String (List ℝ))
    (message_id : Nat) : Bool × ChatState :=
  match embedCap with
  | .error _ => (false, st)
  | .ok vec =>
    if st.embeddings.any (fun p => p.1 == message_id) then
      (true, { st with embeddings :=
        st.embeddings.map (fun p => if p.1 == message_id then (p.1, vec) else p) })
    else
      (true, { st with embeddings := st.embeddings ++ [(message_id, vec)] })

/-- The save loop of `MemoryService.extract_and_save_context`: persist each
non-empty string-valued candidate via the upsert with confidence `0.7`,
collecting the saved pairs. -/
def extractSaveLoop (uid : Nat) (conversation_id : String) (now : Nat) :
    List (String × String) → List UserContext →
    List (String × String) × List UserContext
  | [], ctxs => ([], ctxs)
  | (k, v) :: rest, ctxs =>
    if v = "" then extractSaveLoop uid conversation_id now rest ctxs
    else
      let ctxs1 := (update_or_create_context ctxs uid k v (some conversation_id)
        (7/10) now).2
      let out := extractSaveLoop uid conversation_id now rest ctxs1
      ((k, v) :: out.1, out.2)

/-- The dict returned by `chat_with_memory`. -/
structure ChatResult where
  conversation_id : String
  response : String
  tokens_used : Nat
  model_used : String
  credits_used : Nat
  context_applied : List (String × String)
  learned_context : List (String × String)
deriving DecidableEq

/-- The conversation-resolution step of `chat_with_memory` (lines 136-148):
create a fresh conversation titled from the first message, or look up the
given one scoped to the user, raising `ValueError("Conversation not found")`
when absent. -/
def resolve_conversation (st : ChatState) (uid : Nat) (message : String)
    (conversation_id : Option String) (newConvId newSessionId : String)
    (now : Nat) : Except String (String × ChatState) :=
  match conversation_id with
  | none =>
    let made := create_conversation st uid none newConvId newSessionId now
    let titledConvs :=
      updateFirst (fun c => c.id == made.1.id)
        (fun c => { c with title := generate_conversation_title message })
        made.2.conversations
    .ok (made.1.id, { made.2 with conversations := titledConvs })
  | some cid =>
    match get_conversation st cid uid with
    | none => .error "Conversation not found"
    | some _ => .ok (cid, st)

/-- The persistence tail of `chat_with_memory` (lines 171-218) run after a
successful generation `out`: save the user and assistant messages, store
the assistant embedding best-effort, extract context best-effort when
memory is on, and assemble the returned dict. -/
def chat_commit (st1 : ChatState) (embedCap : Except String (List ℝ))
    (extractCap : Except String (List (String × String)))
    (uid : Nat) (message cid : String) (use_memory : Bool) (out : GenOut)
    (newUserMsgId newAsstMsgId now : Nat) : ChatResult × ChatState :=
  let afterUser := save_message st1 cid "user" message 0 none newUserMsgId now
  let afterAsst := save_message afterUser.2 cid "assistant" out.content
    out.tokens_used (some out.model_used) newAsstMsgId now
  let st4 := (generate_and_store_embedding afterAsst.2 embedCap afterAsst.1.id).2
  let learnedAndState :=
    if use_memory then
      match extractCap with
      | .error _ => (([] : List (String × String)), st4)
      | .ok extracted =>
        let saved := extractSaveLoop uid cid now extracted st4.contexts
        (saved.1, { st4 with contexts := saved.2 })
    else (([] : List (String × String)), st4)
  (⟨cid, out.content, out.tokens_used, out.model_used,
      calculate_credits out.model_used out.tokens_used,
      (contextAndHistory st1 uid cid use_memory).1, learnedAndState.1⟩,
   learnedAndState.2)

/-- Clone of `ConversationService.chat_with_memory`.  Injected capabilities:
the chat client, the embedding capability's outcome for the assistant text,
and the extraction capability's outcome for the exchange.  Fresh ids and the
clock are caller-supplied.  Returns the result dict plus the state after
commit; `ValueError("Conversation not found")` is the error case. -/
def chat_with_memory (st : ChatState) (client : ChatClient)
    (embedCap : Except String (List ℝ))
    (extractCap : Except String (List (String × String)))
    (uid : Nat) (message : String) (conversation_id : Option String)
    (content_type : String) (use_memory : Bool) (model : Option String)
    (newConvId newSessionId : String) (newUserMsgId newAsstMsgId now : Nat) :
    Except String (ChatResult × ChatState) :=
  match resolve_conversation st uid message conversation_id newConvId newSessionId now with
  | .error e => .error e
  | .ok resolved =>
    match generate_with_context client message content_type
        (contextAndHistory resolved.2 uid resolved.1 use_memory).1
        (contextAndHistory resolved.2 uid resolved.1 use_memory).2 model with
    | .error e => .error e
    | .ok out =>
      .ok (chat_commit resolved.2 embedCap extractCap uid message resolved.1
        use_memory out newUserMsgId newAsstMsgId now)

/-- A small concrete database: one conversation `c1` of user 1 holding one
prior user message. -/
def demoState : ChatState :=
  { conversations := [⟨"c1", 1, "T", "s1", 0⟩]
    messages := [⟨1, "c1", "user", "hello", 0, none, 1⟩]
    contexts := []
    embeddings := [] }

/-- A client that answers with the number of messages it was sent, making
the size of the prompt observable in the result. -/
def countingClient : ChatClient :=
  fun msgs m => .ok ⟨toString msgs.length, 0, m, "stop"⟩

/-- C4 counterexample: with `use_memory = false` on a conversation holding a
prior message, the history window handed to the language-model capability is
not empty — `chat_with_memory` fetches it unconditionally (only the context
snapshot is gated).  The counting client receives 3 messages (system + one
history entry + the new user message), not the 2 an empty window would
give. -/
theorem chat_history_fetched_without_memory :
    (contextAndHistory demoState 1 "c1" false).2 ≠ []
    ∧ (chat_with_memory demoState countingClient (.error "down") (.error "down")
        1 "hi" (some "c1") "default" false none "nc" "ns" 100 101 50).map
        (fun p => p.1.response) = .ok "3" := by
  exact ⟨by decide, rfl⟩

/-- C4 (amended): when `use_memory` is false the context snapshot passed to
the language-model capability is empty, but the prior-message history window
is fetched and passed regardless of `use_memory` (the most recent 10
messages, oldest first); when `use_memory` is true the snapshot is the
user's context dict. -/
theorem chat_context_gated_history_not (st : ChatState) (uid : Nat) (cid : String) :
    (contextAndHistory st uid cid false).1 = []
    ∧ (∀ b : Bool, (contextAndHistory st uid cid b).2 = get_recent_messages st cid 10)
    ∧ (contextAndHistory st uid cid true).1 = get_user_context st uid :=
  ⟨rfl, fun _ => rfl, rfl⟩

/-- C4 witness: the amended theorem at the demo database. -/
theorem chat_context_gated_history_not_witness :
    (contextAndHistory demoState 1 "c1" false).1 = [] :=
  (chat_context_gated_history_not demoState 1 "c1").1

theorem generate_content_ok_model {client : ChatClient} {msgs : List RoleMsg}
    {model : Option String} {out : GenOut}
    (h : generate_content client msgs model = .ok out) :
    out.model_used = model.getD DEFAULT_MODEL := by
  unfold generate_content at h
  split at h
  · exact absurd h (by simp)
  · simp only [Except.ok.injEq] at h
    rw [← h]

theorem generate_with_context_ok_model {client : ChatClient}
    {um ct : String} {ctx : List (String × String)} {hist : List RoleMsg}
    {model : Option String} {out : GenOut}
    (h : generate_with_context client um ct ctx hist model = .ok out) :
    out.model_used = model.getD DEFAULT_MODEL :=
  generate_content_ok_model h

theorem generate_and_store_embedding_messages (st : ChatState)
    (embedCap : Except String (List ℝ)) (mid : Nat) :
    ((generate_and_store_embedding st embedCap mid).2).messages = st.messages := by
  unfold generate_and_store_embedding
  cases embedCap with
  | error e => rfl
  | ok vec =>
    by_cases h : st.embeddings.any (fun p => p.1 == mid)
    · simp [h]
    · simp [h]

theorem chat_commit_model_and_messages (st1 : ChatState)
    (embedCap : Except String (List ℝ))
    (extractCap : Except String (List (String × String)))
    (uid : Nat) (message cid : String) (um : Bool) (out : GenOut)
    (numid namid now : Nat) :
    (chat_commit st1 embedCap extractCap uid message cid um out numid namid now).1.model_used
      = out.model_used
    ∧ (chat_commit st1 embedCap extractCap uid message cid um out numid namid now).2.messages
      = st1.messages ++
          [⟨numid, cid, "user", message, 0, none, now⟩,
           ⟨namid, cid, "assistant", out.content, out.tokens_used,
             some out.model_used, now⟩] := by
  constructor
  · rfl
  · unfold chat_commit
    cases um with
    | false =>
      simp [generate_and_store_embedding_messages, save_message]
    | true =>
      cases extractCap with
      | error e => simp [generate_and_store_embedding_messages, save_message]
      | ok l => simp [generate_and_store_embedding_messages, save_message]

/-- C5 counterexample: a client that reports having used
`gpt-4o-mini-2024-07-18` while `gpt-4o` was requested; both the
`generate_content` result and the `chat_with_memory` result record the
requested model `gpt-4o`, not the identifier the capability actually
reported. -/
def substClient : ChatClient :=
  fun _ _ => .ok ⟨"hi", 5, "gpt-4o-mini-2024-07-18", "stop"⟩

theorem model_used_records_requested_model :
    (generate_content substClient [] (some "gpt-4o")).map GenOut.model_used = .ok "gpt-4o"
    ∧ (chat_with_memory demoState substClient (.error "down") (.error "down")
        1 "hi" (some "c1") "default" false (some "gpt-4o") "nc" "ns" 100 101 50).map
        (fun p => p.1.model_used) = .ok "gpt-4o"
    ∧ ("gpt-4o" : String) ≠ "gpt-4o-mini-2024-07-18" :=
  ⟨rfl, rfl, by decide⟩

/-- C5 (amended): the model identifier returned in the result and stored on
the persisted assistant message is the model the service requested from the
API — the caller's model, or the default when none was given — regardless of
the model identifier the capability's response reports; a substituted model
is not recorded. -/
theorem chat_model_used_is_requested_or_default (st : ChatState)
    (client : ChatClient) (embedCap : Except String (List ℝ))
    (extractCap : Except String (List (String × String)))
    (uid : Nat) (message : String) (conversation_id : Option String)
    (content_type : String) (use_memory : Bool) (model : Option String)
    (ncid nsid : String) (numid namid now : Nat) :
    (chat_with_memory st client embedCap extractCap uid message conversation_id
        content_type use_memory model ncid nsid numid namid now).map
        (fun p => p.1.model_used)
      = (chat_with_memory st client embedCap extractCap uid message conversation_id
          content_type use_memory model ncid nsid numid namid now).map
          (fun _ => model.getD DEFAULT_MODEL)
    ∧ (chat_with_memory st client embedCap extractCap uid message conversation_id
        content_type use_memory model ncid nsid numid namid now).map
        (fun p => p.2.messages.getLast?.map Message.model_used)
      = (chat_with_memory st client embedCap extractCap uid message conversation_id
          content_type use_memory model ncid nsid numid namid now).map
          (fun _ => some (some (model.getD DEFAULT_MODEL))) := by
  unfold chat_with_memory
  cases hres : resolve_conversation st uid message conversation_id ncid nsid now with
  | error e => constructor <;> simp [hres, Except.map]
  | ok resolved =>
    cases hgen : generate_with_context client message content_type
        (contextAndHistory resolved.2 uid resolved.1 use_memory).1
        (contextAndHistory resolved.2 uid resolved.1 use_memory).2 model with
    | error e => constructor <;> simp [hres, hgen, Except.map]
    | ok out =>
      have hmodel : out.model_used = model.getD DEFAULT_MODEL :=
        generate_with_context_ok_model hgen
      have hcc := chat_commit_model_and_messages resolved.2 embedCap extractCap
        uid message resolved.1 use_memory out numid namid now
      have hlast : (chat_commit resolved.2 embedCap extractCap uid message
          resolved.1 use_memory out numid namid now).2.messages.getLast?
          = some ⟨namid, resolved.1, "assistant", out.content, out.tokens_used,
              some out.model_used, now⟩ := by
        rw [hcc.2]
        rw [show resolved.2.messages ++
            [(⟨numid, resolved.1, "user", message, 0, none, now⟩ : Message),
             ⟨namid, resolved.1, "assistant", out.content, out.tokens_used,
               some out.model_used, now⟩]
          = (resolved.2.messages ++ [⟨numid, resolved.1, "user", message, 0, none, now⟩])
            ++ [⟨namid, resolved.1, "assistant", out.content, out.tokens_used,
                  some out.model_used, now⟩] by simp]
        rw [List.getLast?_concat]
      constructor
      · simp [hres, hgen, Except.map, hcc.1, hmodel]
      · simp [hres, hgen, Except.map, hlast, hmodel]

/-- C5 witness: the amended theorem at the demo database with the counting
client and no requested model. -/
theorem chat_model_used_is_requested_or_default_witness :
    (chat_with_memory demoState countingClient (.error "down") (.error "down")
        1 "hi" (some "c1") "default" true none "nc" "ns" 100 101 50).map
        (fun p => p.1.model_used)
      = (chat_with_memory demoState countingClient (.error "down") (.error "down")
          1 "hi" (some "c1") "default" true none "nc" "ns" 100 101 50).map
          (fun _ => (none : Option String).getD DEFAULT_MODEL) :=
  (chat_model_used_is_requested_or_default demoState countingClient (.error "down")
    (.error "down") 1 "hi" (some "c1") "default" true none "nc" "ns" 100 101 50).1

/-! ## app/api/deps.py and app/api/messages.py -/

/-- A row of the `users` table (the fields the quota path touches). -/
structure User where
  id : Nat
  plan_type : String
  monthly_quota : Nat
  used_quota : Nat
deriving DecidableEq

/-- A row of the append-only `usage_logs` table. -/
structure UsageLog where
  user_id : Nat
  endpoint : String
  content_type : Option String
  ai_model : String
  tokens_used : Nat
  cost : ℚ
  credits_used : Nat
  response_time : ℚ
  status_code : Nat
  extra_data : List (String × String)
deriving DecidableEq

/-- An `HTTPException`: status code and detail. -/
structure HttpError where
  status_code : Nat
  detail : String
deriving DecidableEq

/-- The full state the `/messages` endpoint reads and writes. -/
structure ApiState where
  chat : ChatState
  redis : Redis
  usage_logs : List UsageLog
  users : List User

/-- Clone of `check_quota` (a dependency, evaluated before the endpoint
body): reject with 429 when the consumed quota meets or exceeds the monthly
allotment. -/
def check_quota (user : User) : Except HttpError User :=
  if user.monthly_quota ≤ user.used_quota then
    .error ⟨429, "Monthly quota exceeded. Plan: " ++ user.plan_type ++ ", Used: "
      ++ toString user.used_quota ++ "/" ++ toString user.monthly_quota⟩
  else
    .ok user

/-- Clone of `AnalyticsService.log_usage`: append a `UsageLog` row and debit
the user's quota by the credits charged. -/
def log_usage (st : ApiState) (uid : Nat) (endpoint : String)
    (content_type : Option String) (ai_model : String) (tokens_used : Nat)
    (cost : ℚ) (credits_used : Nat) (response_time : ℚ) (status_code : Nat)
    (extra_data : List (String × String)) : ApiState :=
  { st with
      usage_logs := st.usage_logs ++
        [⟨uid, endpoint, content_type, ai_model, tokens_used, cost,
          credits_used, response_time, status_code, extra_data⟩]
      users := updateFirst (fun u => u.id == uid)
        (fun u => { u with used_quota := u.used_quota + credits_used }) st.users }

/-- Clone of the `/messages/{conversation_id}` endpoint `send_message`:
quota dependency, then rate limiting, then conversation ownership check,
then `chat_with_memory` with usage logging on both outcomes.  Returns the
response (or the HTTP error raised) together with the state afterwards. -/
def send_message (st : ApiState) (client : ChatClient)
    (embedCap : Except String (List ℝ))
    (extractCap : Except String (List (String × String)))
    (conversation_id content : String) (use_memory : Bool)
    (current_user : User) (t : Time) (response_time : ℚ)
    (newUserMsgId newAsstMsgId now : Nat) :
    Except HttpError ChatResult × ApiState :=
  match check_quota current_user with
  | .error e => (.error e, st)
  | .ok _ =>
    let rate := check_user_rate_limits st.redis current_user.id "messages" 60 1000 t
    let st1 := { st with redis := rate.2 }
    if rate.1.1 = false then
      (.error ⟨429, rate.1.2⟩, st1)
    else
      match get_conversation st1.chat conversation_id current_user.id with
      | none => (.error ⟨404, "Conversation not found"⟩, st1)
      | some _ =>
        match chat_with_memory st1.chat client embedCap extractCap current_user.id
            content (some conversation_id) "default" use_memory none
            "" "" newUserMsgId newAsstMsgId now with
        | .ok r =>
          let st2 := log_usage { st1 with chat := r.2 } current_user.id "/messages"
            (some "conversation") r.1.model_used r.1.tokens_used
            (calculate_cost r.1.model_used r.1.tokens_used) r.1.credits_used
            response_time 200 []
          (.ok r.1, st2)
        | .error e =>
          let st2 := log_usage st1 current_user.id "/messages" (some "conversation")
            "unknown" 0 0 0 response_time 500 [("error", e)]
          (.error ⟨500, "Message processing failed: " ++ e⟩, st2)

/-- C8: a user whose consumed quota meets or exceeds the monthly allotment
gets the 429 quota error, the state is returned exactly as it was (no
`UsageLog` row, no counter, no message, nothing), and the outcome does not
depend on the injected model/embedding/extraction capabilities — no model
invocation can have happened. -/
theorem quota_exceeded_blocks_call (st : ApiState) (client : ChatClient)
    (embedCap : Except String (List ℝ))
    (extractCap : Except String (List (String × String)))
    (cid content : String) (um : Bool) (user : User) (t : Time) (rt : ℚ)
    (numid namid now : Nat)
    (h : user.monthly_quota ≤ user.used_quota) :
    send_message st client embedCap extractCap cid content um user t rt numid namid now
      = (.error ⟨429, "Monthly quota exceeded. Plan: " ++ user.plan_type ++ ", Used: "
          ++ toString user.used_quota ++ "/" ++ toString user.monthly_quota⟩, st)
    ∧ (∀ (client2 : ChatClient) (embedCap2 : Except String (List ℝ))
        (extractCap2 : Except String (List (String × String))),
        send_message st client embedCap extractCap cid content um user t rt numid namid now
          = send_message st client2 embedCap2 extractCap2 cid content um user t rt
              numid namid now) := by
  have hq : check_quota user
      = .error ⟨429, "Monthly quota exceeded. Plan: " ++ user.plan_type ++ ", Used: "
          ++ toString user.used_quota ++ "/" ++ toString user.monthly_quota⟩ := by
    unfold check_quota
    rw [if_pos h]
  constructor
  · unfold send_message
    rw [hq]
  · intro client2 embedCap2 extractCap2
    unfold send_message
    rw [hq]

/-- The concrete API state for the quota scenario: one user on the free plan
with `monthly_quota = 100`, `used_quota = 100`. -/
def apiDemo : ApiState :=
  ⟨demoState, ⟨[], false, false, false⟩, [], [⟨1, "free", 100, 100⟩]⟩

/-- C8 witness: the scenario of the spec — `monthly_quota=100`,
`used_quota=100` — rejected with the quota message and an untouched state. -/
theorem quota_exceeded_blocks_call_witness :
    send_message apiDemo countingClient (.error "down") (.error "down") "c1" "hi"
        true ⟨1, "free", 100, 100⟩ ⟨2026, 10, 12, 0, 0⟩ 0 100 101 50
      = (.error ⟨429, "Monthly quota exceeded. Plan: free, Used: 100/100"⟩, apiDemo) :=
  (quota_exceeded_blocks_call apiDemo countingClient (.error "down") (.error "down")
    "c1" "hi" true ⟨1, "free", 100, 100⟩ ⟨2026, 10, 12, 0, 0⟩ 0 100 101 50
    (by decide)).1

end Studio
